import Mathlib

/-!
Verification of the x402 facilitator protocol layer (`src/handlers.rs`):
the HTTP endpoint adapters and, centrally, the outcome classifier
`impl IntoResponse for FacilitatorLocalError` that maps every internal
error variant to an externally visible HTTP response.
-/

namespace X402

/-- A chain address in some network family. The protocol layer treats it as
an opaque value; we embed it as a string. -/
abbrev MixedAddress := String

/-- Closed enumeration of machine-readable invalidity reasons
(`crate::types::FacilitatorErrorReason`): `invalid_scheme`,
`invalid_network`, `insufficient_funds`, and a free-form diagnostic. -/
inductive FacilitatorErrorReason where
  | InvalidScheme
  | InvalidNetwork
  | InsufficientFunds
  | FreeForm (message : String)
  deriving DecidableEq, Repr

/-- Modelled from the spec: `crate::types::VerifyResponse` is not among the
sources; per the spec's `VerifyOutcome` entity it carries `is_valid`, an
optional payer and an optional reason. -/
structure VerifyResponse where
  isValid : Bool
  payer : Option MixedAddress
  reason : Option FacilitatorErrorReason
  deriving DecidableEq, Repr

/-- Modelled from the spec: `VerifyResponse::invalid(payer, reason)`
constructs the invalid-with-reason outcome, `is_valid = false` with the
given payer and reason. -/
def VerifyResponse.invalid (payer : Option MixedAddress)
    (reason : FacilitatorErrorReason) : VerifyResponse :=
  { isValid := false, payer := payer, reason := some reason }

/-- Modelled from the spec: `crate::types::SettleResponse` is not among the
sources; per the spec's `SettleOutcome` entity it carries a success flag, a
transaction reference, the payer, the network and an optional error reason. -/
structure SettleResponse where
  success : Bool
  transaction : Option String
  payer : Option MixedAddress
  network : String
  errorReason : Option FacilitatorErrorReason
  deriving DecidableEq, Repr

/-- The generic fault body `{"error": ...}` (`crate::types::ErrorResponse`),
constructed in `handlers.rs` with `error: "Invalid request"`. -/
structure ErrorResponse where
  error : String
  deriving DecidableEq, Repr

/-- Modelled from the spec: `FacilitatorLocalError` is declared in
`crate::chain`, which is not among the sources. Its closed variant set and
the type of each variant's first field are taken from the exhaustive,
wildcard-free `match` in `handlers.rs`; the remaining per-variant context
(expected/actual values, diagnostic messages) is embedded as strings. -/
inductive FacilitatorLocalError where
  | SchemeMismatch (payer : Option MixedAddress) (expected actual : String)
  | ReceiverMismatch (payer : MixedAddress) (expected actual : String)
  | InvalidSignature (payer : MixedAddress) (detail : String)
  | InvalidTiming (payer : MixedAddress) (detail : String)
  | InsufficientValue (payer : MixedAddress)
  | NetworkMismatch (payer : Option MixedAddress) (expected actual : String)
  | UnsupportedNetwork (payer : Option MixedAddress)
  | ContractCall (detail : String)
  | InvalidAddress (detail : String)
  | ClockError (detail : String)
  | DecodingError (reason : String)
  | InsufficientFunds (payer : MixedAddress)
  deriving DecidableEq, Repr

/-- The JSON body of a facilitator HTTP response, distinguished by shape:
a `VerifyResponse`, a `SettleResponse`, the generic `ErrorResponse` fault
body, a capability list (for `/supported` and `/health`), or a static
informational document (for the GET metadata endpoints). -/
inductive Body where
  | verify (v : VerifyResponse)
  | settle (s : SettleResponse)
  | fault (e : ErrorResponse)
  | capabilities (kinds : List (String × String))
  | info (doc : String)
  deriving DecidableEq, Repr

/-- Whether a body is `SettleResponse`-shaped. -/
def Body.isSettleShaped : Body → Bool
  | .settle _ => true
  | _ => false

/-- An HTTP response as this layer produces it: a status code and a JSON
body. -/
structure Response where
  status : Nat
  body : Body
  deriving DecidableEq, Repr

/-- `handlers.rs`: `fn invalid_schema(payer) -> VerifyResponse` builds
`VerifyResponse::invalid(payer, FacilitatorErrorReason::InvalidScheme)`. -/
def invalid_schema (payer : Option MixedAddress) : VerifyResponse :=
  VerifyResponse.invalid payer FacilitatorErrorReason.InvalidScheme

/-- The outcome classifier, `impl IntoResponse for FacilitatorLocalError`
in `handlers.rs`: a total function from the closed error variant set to an
HTTP response, transcribed arm by arm from the source `match`. -/
def FacilitatorLocalError.into_response : FacilitatorLocalError → Response
  | .SchemeMismatch payer _ _ =>
      { status := 200, body := .verify (invalid_schema payer) }
  | .ReceiverMismatch payer _ _ =>
      { status := 200, body := .verify (invalid_schema (some payer)) }
  | .InvalidSignature payer _ =>
      { status := 200, body := .verify (invalid_schema (some payer)) }
  | .InvalidTiming payer _ =>
      { status := 200, body := .verify (invalid_schema (some payer)) }
  | .InsufficientValue payer =>
      { status := 200, body := .verify (invalid_schema (some payer)) }
  | .NetworkMismatch payer _ _ =>
      { status := 200,
        body := .verify
          (VerifyResponse.invalid payer FacilitatorErrorReason.InvalidNetwork) }
  | .UnsupportedNetwork payer =>
      { status := 200,
        body := .verify
          (VerifyResponse.invalid payer FacilitatorErrorReason.InvalidNetwork) }
  | .ContractCall _ =>
      { status := 400, body := .fault { error := "Invalid request" } }
  | .InvalidAddress _ =>
      { status := 400, body := .fault { error := "Invalid request" } }
  | .ClockError _ =>
      { status := 400, body := .fault { error := "Invalid request" } }
  | .DecodingError reason =>
      { status := 200,
        body := .verify
          (VerifyResponse.invalid none
            (FacilitatorErrorReason.FreeForm reason)) }
  | .InsufficientFunds payer =>
      { status := 200,
        body := .verify
          (VerifyResponse.invalid (some payer)
            FacilitatorErrorReason.InsufficientFunds) }

/-- The infrastructure-fault variants: chain-call failure, malformed
address, clock failure. -/
def FacilitatorLocalError.isInfrastructureFault : FacilitatorLocalError → Bool
  | .ContractCall _ => true
  | .InvalidAddress _ => true
  | .ClockError _ => true
  | _ => false

/-- The reason carried by a response body when it is an invalid
`VerifyResponse`, if any. -/
def Response.reasonOf (r : Response) : Option FacilitatorErrorReason :=
  match r.body with
  | .verify v => v.reason
  | _ => none

/-- Whether a body claims a valid payment: true exactly for a
`VerifyResponse` body whose `is_valid` flag is set. -/
def Body.claimsValid : Body → Bool
  | .verify v => v.isValid
  | _ => false

/-- `get_supported` in `handlers.rs`, abstracted over the result of the
facilitator's `supported()` call: `Ok` yields 200 with the capability
list as JSON, `Err` delegates to the error's `into_response`. -/
def get_supported
    (s : Except FacilitatorLocalError (List (String × String))) : Response :=
  match s with
  | .ok supported => { status := 200, body := .capabilities supported }
  | .error e => e.into_response

/-- `get_health` in `handlers.rs`: its body is exactly a call to
`get_supported` on the same facilitator state. -/
def get_health
    (s : Except FacilitatorLocalError (List (String × String))) : Response :=
  get_supported s

/-- `post_verify` in `handlers.rs`, abstracted over the result of the
facilitator's `verify()` call: `Ok` yields 200 with the `VerifyResponse`,
`Err` delegates to the error's `into_response` (after logging, which has
no effect on the response). -/
def post_verify
    (result : Except FacilitatorLocalError VerifyResponse) : Response :=
  match result with
  | .ok valid_response => { status := 200, body := .verify valid_response }
  | .error e => e.into_response

/-- `post_settle` in `handlers.rs`, abstracted over the result of the
facilitator's `settle()` call: `Ok` yields 200 with the `SettleResponse`,
`Err` delegates to the same `into_response` classifier as `post_verify`. -/
def post_settle
    (result : Except FacilitatorLocalError SettleResponse) : Response :=
  match result with
  | .ok valid_response => { status := 200, body := .settle valid_response }
  | .error e => e.into_response

/-- Modelled from the spec: the payment payload entity — signer address,
authorized amount, validity window, signature verdict, scheme id and
network id. The signature is opaque to this layer; we embed the
signature-verifier's boolean verdict directly. -/
structure PaymentPayload where
  scheme : String
  network : String
  payer : MixedAddress
  payTo : String
  value : Nat
  validAfter : Nat
  validBefore : Nat
  signatureValid : Bool
  deriving DecidableEq, Repr

/-- Modelled from the spec: the merchant-declared acceptance criteria —
required scheme, required network, recipient address, minimum amount. -/
structure PaymentRequirements where
  scheme : String
  network : String
  payTo : String
  maxAmountRequired : Nat
  deriving DecidableEq, Repr

/-- The `/verify` request body: `{paymentPayload, paymentRequirements}`. -/
structure VerifyRequest where
  paymentPayload : PaymentPayload
  paymentRequirements : PaymentRequirements
  deriving DecidableEq, Repr

/-- Modelled from the spec: the chain backend as seen through its read
path — balances per address and the set of networks this deployment
supports. -/
structure ChainState where
  balanceOf : MixedAddress → Nat
  supportedNetworks : List String

/-- The timing-window check of a payload at evaluation time `t`. -/
def timingValid (p : PaymentPayload) (t : Nat) : Bool :=
  decide (p.validAfter ≤ t) && decide (t < p.validBefore)

/-- Modelled from the spec: the `Facilitator::verify` implementation is in
`crate::chain`, not among the sources. Per §4.1–4.2 it is a pure
feasibility check of the payload against the requirements and current
chain state, evaluated at clock time `t`; only the timing-window check
depends on `t`. Each rejection produces the corresponding
`FacilitatorLocalError` variant. -/
def Facilitator.verify (chain : ChainState) (t : Nat)
    (req : VerifyRequest) : Except FacilitatorLocalError VerifyResponse :=
  let p := req.paymentPayload
  let r := req.paymentRequirements
  if p.scheme ≠ r.scheme then
    .error (.SchemeMismatch (some p.payer) r.scheme p.scheme)
  else if !(chain.supportedNetworks.contains r.network) then
    .error (.UnsupportedNetwork (some p.payer))
  else if p.network ≠ r.network then
    .error (.NetworkMismatch (some p.payer) r.network p.network)
  else if p.payTo ≠ r.payTo then
    .error (.ReceiverMismatch p.payer r.payTo p.payTo)
  else if !p.signatureValid then
    .error (.InvalidSignature p.payer "signature does not verify")
  else if !(timingValid p t) then
    .error (.InvalidTiming p.payer "outside validity window")
  else if p.value < r.maxAmountRequired then
    .error (.InsufficientValue p.payer)
  else if chain.balanceOf p.payer < r.maxAmountRequired then
    .error (.InsufficientFunds p.payer)
  else
    .ok { isValid := true, payer := some p.payer, reason := none }

/-- Sample payload used to instantiate universally quantified theorems. -/
def samplePayload : PaymentPayload :=
  { scheme := "exact", network := "base", payer := "0xabc",
    payTo := "0xdef", value := 10, validAfter := 0, validBefore := 100,
    signatureValid := true }

/-- Sample request pairing `samplePayload` with matching requirements. -/
def sampleRequest : VerifyRequest :=
  { paymentPayload := samplePayload,
    paymentRequirements :=
      { scheme := "exact", network := "base", payTo := "0xdef",
        maxAmountRequired := 10 } }

/-- Sample chain state: every address holds balance 50, network `base`
is supported. -/
def sampleChain : ChainState :=
  { balanceOf := fun _ => 50, supportedNetworks := ["base"] }

/-- Claim C1: the outcome classifier is a total function over the closed
`FacilitatorLocalError` variant set: every variant yields exactly one
response, either HTTP 200 carrying an invalid-with-reason
`VerifyResponse` or HTTP 400 carrying the generic fault body; no variant
reaches an unhandled or panicking path. -/
theorem c1_classifier_total (e : FacilitatorLocalError) :
    (e.into_response.status = 200 ∧
      ∃ v : VerifyResponse, e.into_response.body = Body.verify v ∧
        v.isValid = false ∧ v.reason.isSome = true) ∨
    (e.into_response.status = 400 ∧
      e.into_response.body = Body.fault { error := "Invalid request" }) := by
  cases e <;>
    first
      | exact Or.inr ⟨rfl, rfl⟩
      | exact Or.inl ⟨rfl, _, rfl, rfl, rfl⟩

/-- Claim C2, counterexample: the reason code does not identify the
payment-semantic rejection variant. A receiver mismatch and a
timing-window violation are distinct variants, yet the classifier maps
them to identical responses, both carrying reason `invalid_scheme` — the
code naming the scheme-mismatch variant, not the variant at hand. -/
theorem c2_reason_not_variant_specific :
    FacilitatorLocalError.ReceiverMismatch "0xabc" "0xdef" "0x123" ≠
      FacilitatorLocalError.InvalidTiming "0xabc" "deadline passed" ∧
    (FacilitatorLocalError.ReceiverMismatch
        "0xabc" "0xdef" "0x123").into_response =
      (FacilitatorLocalError.InvalidTiming
        "0xabc" "deadline passed").into_response ∧
    (FacilitatorLocalError.ReceiverMismatch
        "0xabc" "0xdef" "0x123").into_response.reasonOf =
      some FacilitatorErrorReason.InvalidScheme :=
  ⟨by decide, rfl, rfl⟩

/-- Claim C2, amended: every payment-semantic rejection variant (scheme
mismatch, receiver mismatch, invalid signature, timing-window violation,
insufficient authorized value) yields HTTP 200 with `is_valid` false and
reason `invalid_scheme` — one shared code for all five, not a code
specific to each variant. -/
theorem c2_semantic_rejections_all_invalid_scheme
    (po : Option MixedAddress) (p : MixedAddress) (s1 s2 s3 s4 d1 d2 : String) :
    (FacilitatorLocalError.SchemeMismatch po s1 s2).into_response =
      { status := 200,
        body := .verify
          (VerifyResponse.invalid po FacilitatorErrorReason.InvalidScheme) } ∧
    (FacilitatorLocalError.ReceiverMismatch p s3 s4).into_response =
      { status := 200,
        body := .verify
          (VerifyResponse.invalid (some p)
            FacilitatorErrorReason.InvalidScheme) } ∧
    (FacilitatorLocalError.InvalidSignature p d1).into_response =
      { status := 200,
        body := .verify
          (VerifyResponse.invalid (some p)
            FacilitatorErrorReason.InvalidScheme) } ∧
    (FacilitatorLocalError.InvalidTiming p d2).into_response =
      { status := 200,
        body := .verify
          (VerifyResponse.invalid (some p)
            FacilitatorErrorReason.InvalidScheme) } ∧
    (FacilitatorLocalError.InsufficientValue p).into_response =
      { status := 200,
        body := .verify
          (VerifyResponse.invalid (some p)
            FacilitatorErrorReason.InvalidScheme) } :=
  ⟨rfl, rfl, rfl, rfl, rfl⟩

/-- Claim C3: the classifier produces HTTP 400 exactly for the
infrastructure-fault variants (chain-call failure, malformed address,
clock failure), every 400 carries the fixed body
`\x7b"error": "Invalid request"\x7d`, and all other variants yield HTTP 200 —
so status code alone separates payment rejection from processing
failure. -/
theorem c3_status_distinguishes_faults (e : FacilitatorLocalError) :
    (e.into_response.status = 400 ∨ e.into_response.status = 200) ∧
    (e.into_response.status = 400 ↔ e.isInfrastructureFault = true) ∧
    (e.isInfrastructureFault = false ∨
      e.into_response =
        { status := 400, body := .fault { error := "Invalid request" } }) := by
  cases e <;>
    simp [FacilitatorLocalError.into_response,
      FacilitatorLocalError.isInfrastructureFault]

/-- Claim C4: a decoding failure is classified as HTTP 200 with
`is_valid` false and a free-form reason carrying the diagnostic message,
not as a 400 client-protocol error. -/
theorem c4_decoding_error_freeform (msg : String) :
    (FacilitatorLocalError.DecodingError msg).into_response =
      { status := 200,
        body := .verify
          { isValid := false, payer := none,
            reason := some (FacilitatorErrorReason.FreeForm msg) } } := rfl

/-- Claim C5: the insufficient-funds variant is classified as HTTP 200
with `is_valid` false and reason `insufficient_funds`. -/
theorem c5_insufficient_funds_reason (p : MixedAddress) :
    (FacilitatorLocalError.InsufficientFunds p).into_response =
      { status := 200,
        body := .verify
          { isValid := false, payer := some p,
            reason := some FacilitatorErrorReason.InsufficientFunds } } := rfl

/-- Claim C6: both the network-mismatch and the unsupported-network
variants are classified as HTTP 200 with `is_valid` false and reason
`invalid_network`. -/
theorem c6_network_variants_invalid_network
    (po : Option MixedAddress) (s1 s2 : String) :
    (FacilitatorLocalError.NetworkMismatch po s1 s2).into_response =
      { status := 200,
        body := .verify
          { isValid := false, payer := po,
            reason := some FacilitatorErrorReason.InvalidNetwork } } ∧
    (FacilitatorLocalError.UnsupportedNetwork po).into_response =
      { status := 200,
        body := .verify
          { isValid := false, payer := po,
            reason := some FacilitatorErrorReason.InvalidNetwork } } :=
  ⟨rfl, rfl⟩

/-- Claim C7: `GET /health` and `GET /supported` are the same operation:
for the same facilitator state they produce identical responses (same
status, same body). -/
theorem c7_health_equals_supported
    (s : Except FacilitatorLocalError (List (String × String))) :
    get_health s = get_supported s := rfl

/-- Claim C8: verification is idempotent for the caller: two `verify`
calls with the identical payload, both within the payload's validity
window, produce the identical response; the classifier itself is a
function, so equal error variants always map to equal responses. -/
theorem c8_verify_idempotent (chain : ChainState) (req : VerifyRequest)
    (t1 t2 : Nat)
    (h1 : timingValid req.paymentPayload t1 = true)
    (h2 : timingValid req.paymentPayload t2 = true) :
    post_verify (Facilitator.verify chain t1 req) =
      post_verify (Facilitator.verify chain t2 req) := by
  simp only [Facilitator.verify, h1, h2]

/-- Witness for C8 at a concrete chain state, request and two distinct
in-window evaluation times. -/
theorem c8_verify_idempotent_witness :
    timingValid sampleRequest.paymentPayload 5 = true ∧
    timingValid sampleRequest.paymentPayload 6 = true ∧
    post_verify (Facilitator.verify sampleChain 5 sampleRequest) =
      post_verify (Facilitator.verify sampleChain 6 sampleRequest) :=
  ⟨by decide, by decide,
    c8_verify_idempotent sampleChain sampleRequest 5 6 (by decide) (by decide)⟩

/-- Claim C9: on every error from the facilitator's settle operation,
`POST /settle` produces exactly the response `POST /verify` would for
that error, and that response is never `SettleResponse`-shaped: semantic
rejections come back as a 200 `VerifyResponse` body and infrastructure
faults as the same generic 400 body. -/
theorem c9_settle_errors_match_verify (e : FacilitatorLocalError) :
    post_settle (Except.error e) = post_verify (Except.error e) ∧
    (post_settle (Except.error e)).body.isSettleShaped = false := by
  refine ⟨rfl, ?_⟩
  cases e <;> rfl

/-- Claim C10: no error variant is ever reported as an accepted payment:
for every `FacilitatorLocalError`, the classifier's response body never
claims `is_valid` true. -/
theorem c10_no_error_claims_valid (e : FacilitatorLocalError) :
    e.into_response.body.claimsValid = false := by
  cases e <;> rfl

end X402

